import Mathlib

/-!
# Verification of the HTTP handlers of the authentication controller

Shallow embedding of `internal/controller/auth_controller.go`.

Everything a handler obtains from outside its own body is an explicit argument:
the request context (`c.Get`, `c.BodyParser`, `c.FormFile`), the service methods of
`AuthService`, `middleware.GetJWTPayload`, `jwt.Token.SignedString`, the process
environment (`os.Getenv`) and the readings of the clock (`time.Now`).
A handler run is a value: the calls it made to its collaborators, in order, and the
way it ended, which is either an HTTP response or a Go run-time panic.
-/

namespace AuthController

/-! ## Go values -/

/-- Go `error` value that is not nil: the text returned by `Error()` and the answer of
`errors.Is(err, http.ErrMissingFile)`. A nil error is `none : Option GoError`. -/
structure GoError where
  text : String
  isErrMissingFile : Bool
deriving DecidableEq, Repr

/-- Values of type `interface{}` that occur in `fiber.Map` and `jwt.MapClaims`:
nil, strings, integers, and maps from strings to strings (the validation errors and the
inner `data` map of the login response). -/
inductive Value where
  | null : Value
  | str : String → Value
  | int : Int → Value
  | obj : List (String × String) → Value
deriving DecidableEq, Repr

/-- Both `fiber.Map` and `jwt.MapClaims` are `map[string]interface{}`; the entries are
listed in the order of the map literal and read with `List.lookup`. The nil map is `[]`. -/
abbrev GoMap := List (String × Value)

/-- Contents of a file or of a string slice, as bytes. -/
abbrev Bytes := List UInt8

/-- How a handler ends: `c.Status(status).JSON(body)`, or a run-time panic. -/
inductive Outcome where
  | response : Int → GoMap → Outcome
  | fault : String → Outcome
deriving DecidableEq, Repr

/-- Status codes of the fiber package that the handlers use. -/
def StatusOK : Int := 200
def StatusCreated : Int := 201
def StatusBadRequest : Int := 400
def StatusForbidden : Int := 403
def StatusInternalServerError : Int := 500

/-- Status of the response after `c.Status(status)`: the response keeps the status that was
set, and a status of 0 counts as not set, which leaves the default, 200. The statuses that the
handlers write as constants are not 0; for them `Status` is the identity and is left out. -/
def Status (status : Int) : Int := if status = 0 then StatusOK else status

/-- Error value returned by the service layer (`*helper.ErrorStruct`), read by the handlers
through the fields `Code`, `ValidationErrors` and `Err`; either of the last two may be nil. -/
structure ErrorStruct where
  Code : Int
  ValidationErrors : Option (List (String × String))
  Err : Option GoError
deriving DecidableEq, Repr

/-- Process environment read with `os.Getenv`. -/
structure Env where
  JWT_SECRET : String
  JWT_ISS : String
deriving DecidableEq, Repr

/-! ## Time -/

/-- Instants of `time.Time`, as nanoseconds since the Unix epoch. -/
abbrev Time := Int

/-- Lengths of `time.Duration`, in nanoseconds. -/
abbrev Duration := Int

def Second : Duration := 1000000000
def Hour : Duration := 3600 * Second

/-- Method `t.Add(d)`. -/
def Time.Add (t : Time) (d : Duration) : Time := t + d

/-- Method `t.Unix()`: whole seconds since the epoch, rounded down. -/
def Time.Unix (t : Time) : Int := t / Second

/-! ## Tokens -/

/-- Signing methods of the jwt package; the controller only uses `SigningMethodHS256`. -/
inductive SigningMethod where
  | HS256 | HS384 | HS512
deriving DecidableEq, Repr

/-- Result of `jwt.NewWithClaims(method, claims)`. -/
structure Token where
  Method : SigningMethod
  Claims : GoMap
deriving DecidableEq, Repr

def NewWithClaims (method : SigningMethod) (claims : GoMap) : Token := ⟨method, claims⟩

/-- Account record returned by `LoginUserService`, read through `ID`, `Email` and `Role`. -/
structure User where
  ID : String
  Email : String
  Role : String
deriving DecidableEq, Repr

/-! ## Multipart files -/

/-- Opened multipart file: what `io.ReadAll` returns for it. -/
structure File where
  ReadAll : Except GoError Bytes

/-- Value of `multipart.FileHeader`: what `Open()` returns for it. -/
structure FileHeader where
  Open : Except GoError File

/-- Function `readImage`. The argument is a pointer: on nil, `image.Open()` dereferences it
and the program panics (`none`). Otherwise the bytes of the file, or the error of `Open` or of
`io.ReadAll`. -/
def readImage (image : Option FileHeader) : Option (Except GoError Bytes) :=
  match image with
  | none => none
  | some fh =>
    match fh.Open with
    | .error err => some (.error err)
    | .ok f =>
      match f.ReadAll with
      | .error err => some (.error err)
      | .ok fileData => some (.ok fileData)

/-! ## Handler runs -/

/-- Run of a handler: the calls made to the service (their arguments, in order), the tokens
handed to `SignedString` (in order), and the outcome. -/
structure Run (Call : Type) where
  calls : List Call
  signed : List Token
  outcome : Outcome

/-- Response body `fiber.Map` with status "error" and the given errors. -/
def errorBody (errors : Value) : GoMap := [("status", .str "error"), ("errors", errors)]

/-- Response body `fiber.Map` with status "success" and a message. -/
def successBody (message : String) : GoMap :=
  [("status", .str "success"), ("message", .str message)]

/-- The two `if` statements on `errService` that every handler runs after its service call:
the response they return, or `none` when neither returns and the handler goes on. -/
def serviceError (errService : Option ErrorStruct) : Option Outcome :=
  match errService with
  | none => none
  | some e =>
    match e.ValidationErrors, e.Err with
    | some ve, _ => some (.response (Status e.Code) (errorBody (.obj ve)))
    | none, some err => some (.response (Status e.Code) (errorBody (.str err.text)))
    | none, none => none

/-! ## LoginUser -/

/-- Local variable `claims` of `LoginUser`. -/
def LoginUser.claims (res : User) (env : Env) (now : Time) : GoMap :=
  [ ("id", .str res.ID),
    ("email", .str res.Email),
    ("role", .str res.Role),
    ("exp", .int (Time.Unix (Time.Add now (Hour * 24)))),
    ("iss", .str env.JWT_ISS) ]

/-- Local variable `refreshClaims` of `LoginUser`. -/
def LoginUser.refreshClaims (res : User) (env : Env) (now : Time) : GoMap :=
  [ ("id", .str res.ID),
    ("exp", .int (Time.Unix (Time.Add now (Hour * 24 * 7)))),
    ("iss", .str env.JWT_ISS) ]

/-- Handler `LoginUser`. `BodyParser` is the result of `c.BodyParser(&user)`; `now1` and
`now2` are the two readings of `time.Now()`. The service returns `res`, nil-able when its
type is a pointer (reading a field of a nil `res` panics), and `errService`. -/
def LoginUser {Req : Type}
    (LoginUserService : Req → Option User × Option ErrorStruct)
    (SignedString : Token → String → Except GoError String)
    (env : Env) (now1 now2 : Time) (BodyParser : Except GoError Req) : Run Req :=
  match BodyParser with
  | .error err => ⟨[], [], .response StatusBadRequest (errorBody (.str err.text))⟩
  | .ok user =>
    match LoginUserService user with
    | (res, errService) =>
      match serviceError errService with
      | some out => ⟨[user], [], out⟩
      | none =>
        match res with
        | none => ⟨[user], [], .fault "invalid memory address or nil pointer dereference"⟩
        | some res =>
          let token := NewWithClaims .HS256 (LoginUser.claims res env now1)
          match SignedString token env.JWT_SECRET with
          | .error _ =>
            ⟨[user], [token], .response StatusForbidden (errorBody (.str "Invalid token"))⟩
          | .ok t =>
            let refreshToken := NewWithClaims .HS256 (LoginUser.refreshClaims res env now2)
            match SignedString refreshToken env.JWT_SECRET with
            | .error _ =>
              ⟨[user], [token, refreshToken],
                .response StatusForbidden (errorBody (.str "Invalid refresh token"))⟩
            | .ok rt =>
              ⟨[user], [token, refreshToken],
                .response StatusOK
                  [ ("status", .str "success"),
                    ("data", .obj [("access_token", t), ("refresh_token", rt)]) ]⟩

/-! ## ChangePassword -/

/-- The bytes of a string, in its UTF-8 encoding. -/
def stringBytes (s : String) : Bytes := s.data.flatMap String.utf8EncodeChar

/-- Slice expression `s[low:]` on a string: the bytes from index `low` on; it panics (`none`)
when `low` exceeds `len(s)`, the length in bytes. -/
def sliceFrom (s : String) (low : Nat) : Option Bytes :=
  if low ≤ s.utf8ByteSize then some ((stringBytes s).drop low) else none

/-- Type assertion `v.(string)` on the result of a map index; it panics (`none`) when the
key is absent (the index yields nil) or the value is not a string. -/
def assertString (v : Option Value) : Option String :=
  match v with
  | some (.str s) => some s
  | _ => none

/-- Arguments of one call of `ChangePasswordService`. -/
structure ChangePasswordCall (Req : Type) where
  id : String
  user : Req

/-- Handler `ChangePassword`. `Authorization` is `c.Get("Authorization")`, the empty string
when the header is absent. `GetJWTPayload` returns the payload and an error; the handler
drops the error. -/
def ChangePassword {Req : Type}
    (GetJWTPayload : Bytes → String → GoMap × Option GoError)
    (ChangePasswordService : String → Req → Option ErrorStruct)
    (env : Env) (Authorization : String) (BodyParser : Except GoError Req) :
    Run (ChangePasswordCall Req) :=
  let token := Authorization
  match sliceFrom token 7 with
  | none => ⟨[], [], .fault "slice bounds out of range"⟩
  | some tokenString =>
    let payload := (GetJWTPayload tokenString env.JWT_SECRET).1
    match BodyParser with
    | .error err => ⟨[], [], .response StatusBadRequest (errorBody (.str err.text))⟩
    | .ok user =>
      match assertString (payload.lookup "id") with
      | none => ⟨[], [], .fault "interface conversion: interface is not string"⟩
      | some id =>
        let errService := ChangePasswordService id user
        match serviceError errService with
        | some out => ⟨[⟨id, user⟩], [], out⟩
        | none =>
          ⟨[⟨id, user⟩], [], .response StatusOK (successBody "Berhasil mengubah password!")⟩

/-! ## CreateUser and CreateDriver -/

/-- Arguments of one call of `CreateUserService`. -/
structure CreateUserCall (Req : Type) where
  user : Req
  role : String

/-- Handler `CreateUser`. -/
def CreateUser {Req : Type}
    (CreateUserService : Req → String → Option ErrorStruct)
    (BodyParser : Except GoError Req) : Run (CreateUserCall Req) :=
  match BodyParser with
  | .error err => ⟨[], [], .response StatusBadRequest (errorBody (.str err.text))⟩
  | .ok user =>
    let errService := CreateUserService user "user"
    match serviceError errService with
    | some out => ⟨[⟨user, "user"⟩], [], out⟩
    | none => ⟨[⟨user, "user"⟩], [], .response StatusCreated (successBody "akun berhasil dibuat!")⟩

/-- Arguments of one call of `CreateDriverService`. -/
structure CreateDriverCall (Req : Type) where
  driver : Req
  role : String
  profilePicture : Bytes
  ktp : Bytes

/-- Handler `CreateDriver`. `FormFile key` is the result of `c.FormFile(key)`: a file header
(nil when there is none) and an error. The error of the first call is overwritten by the
second call before it is read. -/
def CreateDriver {Req : Type}
    (CreateDriverService : Req → String → Bytes → Bytes → Option ErrorStruct)
    (FormFile : String → Option FileHeader × Option GoError)
    (BodyParser : Except GoError Req) : Run (CreateDriverCall Req) :=
  let pp := (FormFile "profile_picture").1
  match FormFile "ktp" with
  | (ktp, err) =>
    if err.any (fun e => !e.isErrMissingFile) then
      ⟨[], [], .response StatusBadRequest (errorBody (.str "error reading image"))⟩
    else
      match BodyParser with
      | .error err => ⟨[], [], .response StatusBadRequest (errorBody (.str err.text))⟩
      | .ok driver =>
        match readImage pp with
        | none => ⟨[], [], .fault "invalid memory address or nil pointer dereference"⟩
        | some (.error err) =>
          ⟨[], [], .response StatusInternalServerError (errorBody (.str err.text))⟩
        | some (.ok fileDataPP) =>
          match readImage ktp with
          | none => ⟨[], [], .fault "invalid memory address or nil pointer dereference"⟩
          | some (.error err) =>
            ⟨[], [], .response StatusInternalServerError (errorBody (.str err.text))⟩
          | some (.ok fileDataKtp) =>
            let errService := CreateDriverService driver "driver" fileDataPP fileDataKtp
            match serviceError errService with
            | some out => ⟨[⟨driver, "driver", fileDataPP, fileDataKtp⟩], [], out⟩
            | none =>
              ⟨[⟨driver, "driver", fileDataPP, fileDataKtp⟩], [],
                .response StatusCreated (successBody "akun berhasil dibuat!")⟩

/-! ## SendResetPasswordLink and ResetPassword -/

/-- Handler `SendResetPasswordLink`. The service returns the message `res` and an error
value; on a non-nil error value the handler reads `err.Err.Error()` without a check, which
panics when `Err` is nil. -/
def SendResetPasswordLink {Req : Type}
    (SendResetPasswordService : Req → Value × Option ErrorStruct)
    (BodyParser : Except GoError Req) : Run Req :=
  match BodyParser with
  | .error err => ⟨[], [], .response StatusBadRequest (errorBody (.str err.text))⟩
  | .ok email =>
    match SendResetPasswordService email with
    | (res, err) =>
      match err with
      | some err =>
        match err.Err with
        | none => ⟨[email], [], .fault "invalid memory address or nil pointer dereference"⟩
        | some e => ⟨[email], [], .response (Status err.Code) (errorBody (.str e.text))⟩
      | none => ⟨[email], [], .response StatusOK [("status", .str "success"), ("message", res)]⟩

/-- Arguments of one call of the service method `ResetPassword`. -/
structure ResetPasswordCall (Req : Type) where
  rp : Req
  code : String

/-- Handler `ResetPassword`. `code` is `c.Params("code")`. -/
def ResetPassword {Req : Type}
    (ResetPasswordService : Req → String → Option ErrorStruct)
    (code : String) (BodyParser : Except GoError Req) : Run (ResetPasswordCall Req) :=
  match BodyParser with
  | .error err => ⟨[], [], .response StatusBadRequest (errorBody (.str err.text))⟩
  | .ok rp =>
    let errService := ResetPasswordService rp code
    match serviceError errService with
    | some out => ⟨[⟨rp, code⟩], [], out⟩
    | none =>
      ⟨[⟨rp, code⟩], [],
        .response StatusOK (successBody "Berhasil melakukan reset password!")⟩

/-! ## Reading a response -/

/-- Entry `key` of the `data` map of a response body, when the body has one. -/
def dataField (key : String) (body : GoMap) : Option String :=
  match body.lookup "data" with
  | some (.obj m) => m.lookup key
  | _ => none

/-- Token carried by a response body under `data.access_token`. -/
def accessTokenOf (body : GoMap) : Option String := dataField "access_token" body

/-- Token carried by a response body under `data.refresh_token`. -/
def refreshTokenOf (body : GoMap) : Option String := dataField "refresh_token" body

/-- Whether a response body is an error body: its `status` entry is "error". -/
def isErrorBody (body : GoMap) : Bool := body.lookup "status" == some (.str "error")

/-! ## Sample inputs -/

/-- Sample account. -/
def sampleUser : User := ⟨"u-1", "rider@example.com", "user"⟩

/-- Sample environment. -/
def sampleEnv : Env := ⟨"top-secret", "mikronet"⟩

/-- Sample login service that accepts every request as `sampleUser`. -/
def sampleLoginOk : Unit → Option User × Option ErrorStruct := fun _ => (some sampleUser, none)

/-- Sample signer that always succeeds; the signature names the key and the kind of token. -/
def sampleSign : Token → String → Except GoError String :=
  fun tok key =>
    if (tok.Claims.lookup "email").isSome then .ok (key ++ ".access")
    else .ok (key ++ ".refresh")

/-- Sample signer that always fails. -/
def sampleSignFails : Token → String → Except GoError String :=
  fun _ _ => .error ⟨"key is invalid", false⟩

/-- Sample signer that signs tokens with an email claim and fails on the others. -/
def sampleSignAccessOnly : Token → String → Except GoError String :=
  fun tok key =>
    if (tok.Claims.lookup "email").isSome then .ok ("a." ++ key)
    else .error ⟨"key is invalid", false⟩

/-- Sample login service that returns an error value whose `ValidationErrors` and `Err` are
both nil, next to an account record. -/
def sampleLoginEmptyError : Unit → Option User × Option ErrorStruct :=
  fun _ => (some sampleUser, some ⟨401, none, none⟩)

/-- Sample login service that rejects every request with the given error value. -/
def sampleLoginRejects (e : ErrorStruct) : Unit → Option User × Option ErrorStruct :=
  fun _ => (none, some e)

/-- Sample uploaded file with three bytes. -/
def sampleFile : FileHeader := ⟨.ok ⟨.ok [1, 2, 3]⟩⟩

/-- Sample uploaded file whose `Open` fails with the given text. -/
def sampleBrokenFile (text : String) : FileHeader := ⟨.error ⟨text, false⟩⟩

/-- The error `http.ErrMissingFile`. -/
def ErrMissingFile : GoError := ⟨"http: no such file", true⟩

/-- The error that `c.FormFile` returns for a key without an uploaded file: the missing-file
error of the fasthttp package, a value other than `http.ErrMissingFile`. -/
def fasthttpErrMissingFile : GoError :=
  ⟨"there is no uploaded file associated with the given key", false⟩

/-- Sample form in which the named files are present, `sampleFile` each, and every other
file is missing. -/
def sampleForm (present : List String) : String → Option FileHeader × Option GoError :=
  fun key =>
    if key ∈ present then (some sampleFile, none) else (none, some fasthttpErrMissingFile)

/-- Sample form whose profile picture cannot be opened and whose ktp is `sampleFile`. -/
def sampleFormBrokenPP (text : String) : String → Option FileHeader × Option GoError :=
  fun key =>
    if key = "profile_picture" then (some (sampleBrokenFile text), none)
    else (some sampleFile, none)

/-- Sample form whose ktp cannot be opened and whose profile picture is `sampleFile`. -/
def sampleFormBrokenKtp (text : String) : String → Option FileHeader × Option GoError :=
  fun key =>
    if key = "ktp" then (some (sampleBrokenFile text), none)
    else (some sampleFile, none)

/-- Sample form in which reading the named file fails with an error that is not
`http.ErrMissingFile` (no file header, the given text), and every other file is `sampleFile`. -/
def sampleFormUnreadable (failing : String) (text : String) :
    String → Option FileHeader × Option GoError :=
  fun key => if key = failing then (none, some ⟨text, false⟩) else (some sampleFile, none)

/-- Sample registration service for drivers that accepts every request. -/
def sampleDriverService : Unit → String → Bytes → Bytes → Option ErrorStruct :=
  fun _ _ _ _ => none

/-- Sample registration service for drivers that fails with code 500 and the given text. -/
def sampleDriverServiceFails (text : String) :
    Unit → String → Bytes → Bytes → Option ErrorStruct :=
  fun _ _ _ _ => some ⟨500, none, some ⟨text, false⟩⟩

/-- Sample registration service for users that accepts every request. -/
def sampleUserService : Unit → String → Option ErrorStruct := fun _ _ => none

/-- Sample registration service for users that accepts the role "user" and rejects every
other role. -/
def sampleUserServiceChecksRole : Unit → String → Option ErrorStruct :=
  fun _ role =>
    if role = "user" then none else some ⟨403, none, some ⟨"role tidak valid", false⟩⟩

/-- Sample registration service for drivers that accepts the role "driver" and rejects every
other role. -/
def sampleDriverServiceChecksRole : Unit → String → Bytes → Bytes → Option ErrorStruct :=
  fun _ role _ _ =>
    if role = "driver" then none else some ⟨403, none, some ⟨"role tidak valid", false⟩⟩

/-- Sample registration service for users that fails with code 500 and the given text. -/
def sampleUserServiceFails (text : String) : Unit → String → Option ErrorStruct :=
  fun _ _ => some ⟨500, none, some ⟨text, false⟩⟩

/-- Sample login service that fails with code 500 and the given text. -/
def sampleLoginFails (text : String) : Unit → Option User × Option ErrorStruct :=
  fun _ => (none, some ⟨500, none, some ⟨text, false⟩⟩)

/-- Sample reset-link service that fails with code 500 and the given text. -/
def sampleSendResetFails (text : String) : Unit → Value × Option ErrorStruct :=
  fun _ => (.str "", some ⟨500, none, some ⟨text, false⟩⟩)

/-- Sample reset service that fails with code 500 and the given text. -/
def sampleResetFails (text : String) : Unit → String → Option ErrorStruct :=
  fun _ _ => some ⟨500, none, some ⟨text, false⟩⟩

/-- Sample password service that accepts every request. -/
def samplePasswordService : String → Unit → Option ErrorStruct := fun _ _ => none

/-- Sample password service that fails with code 500 and the given text. -/
def samplePasswordServiceFails (text : String) : String → Unit → Option ErrorStruct :=
  fun _ _ => some ⟨500, none, some ⟨text, false⟩⟩

/-- Sample verifier that rejects every token: nil payload and an error. -/
def sampleVerifyRejects : Bytes → String → GoMap × Option GoError :=
  fun _ _ => ([], some ⟨"token signature is invalid", false⟩)

/-- Sample verifier that accepts every token as the account `sampleUser`. -/
def sampleVerifyAccepts : Bytes → String → GoMap × Option GoError :=
  fun _ _ => ([("id", .str "u-1")], none)

/-! ## Lemmas on the embedding -/

theorem Unix_Add_hours (now : Time) (n : Int) :
    Time.Unix (Time.Add now (Hour * n)) = Time.Unix now + 3600 * n := by
  unfold Time.Unix Time.Add Hour Second
  have h : now + 3600 * 1000000000 * n = now + (3600 * n) * 1000000000 := by ring
  rw [h, Int.add_mul_ediv_right _ _ (by decide)]

theorem Unix_Add_week (now : Time) :
    Time.Unix (Time.Add now (Hour * 24 * 7)) = Time.Unix now + 604800 := by
  have h : Hour * 24 * 7 = Hour * 168 := by ring
  rw [h, Unix_Add_hours]; norm_num

theorem lookup_claims_other (res : User) (env : Env) (now : Time) (k : String)
    (hk : k ∉ ["id", "email", "role", "iss", "exp"]) :
    (LoginUser.claims res env now).lookup k = none := by
  simp only [List.mem_cons, List.mem_singleton, not_or, List.not_mem_nil, not_false_eq_true,
    and_true] at hk
  obtain ⟨h1, h2, h3, h4, h5⟩ := hk
  have e1 : (k == "id") = false := beq_eq_false_iff_ne.mpr h1
  have e2 : (k == "email") = false := beq_eq_false_iff_ne.mpr h2
  have e3 : (k == "role") = false := beq_eq_false_iff_ne.mpr h3
  have e4 : (k == "iss") = false := beq_eq_false_iff_ne.mpr h4
  have e5 : (k == "exp") = false := beq_eq_false_iff_ne.mpr h5
  simp [LoginUser.claims, List.lookup, e1, e2, e3, e4, e5]

theorem lookup_refreshClaims_other (res : User) (env : Env) (now : Time) (k : String)
    (hk : k ∉ ["id", "iss", "exp"]) :
    (LoginUser.refreshClaims res env now).lookup k = none := by
  simp only [List.mem_cons, List.mem_singleton, not_or, List.not_mem_nil, not_false_eq_true,
    and_true] at hk
  obtain ⟨h1, h2, h3⟩ := hk
  have e1 : (k == "id") = false := beq_eq_false_iff_ne.mpr h1
  have e2 : (k == "iss") = false := beq_eq_false_iff_ne.mpr h2
  have e3 : (k == "exp") = false := beq_eq_false_iff_ne.mpr h3
  simp [LoginUser.refreshClaims, List.lookup, e1, e2, e3]

theorem isErrorBody_errorBody (errors : Value) : isErrorBody (errorBody errors) = true := by
  simp [isErrorBody, errorBody, List.lookup]

theorem accessTokenOf_errorBody (errors : Value) : accessTokenOf (errorBody errors) = none := by
  simp [accessTokenOf, dataField, errorBody, List.lookup]

theorem refreshTokenOf_errorBody (errors : Value) : refreshTokenOf (errorBody errors) = none := by
  simp [refreshTokenOf, dataField, errorBody, List.lookup]

/-- A response returned by the two `if` statements on `errService` has the code of the error
value as status and an error body. -/
theorem serviceError_some (errService : Option ErrorStruct) (out : Outcome)
    (h : serviceError errService = some out) :
    ∃ e errors, errService = some e ∧ (e.ValidationErrors ≠ none ∨ e.Err ≠ none) ∧
      out = .response (Status e.Code) (errorBody errors) := by
  cases errService with
  | none => simp [serviceError] at h
  | some e =>
    rcases e with ⟨code, ve, err⟩
    cases ve with
    | some ve =>
      simp only [serviceError, Option.some.injEq] at h
      exact ⟨_, _, rfl, Or.inl (by simp), h.symm⟩
    | none =>
      cases err with
      | some err =>
        simp only [serviceError, Option.some.injEq] at h
        exact ⟨_, _, rfl, Or.inr (by simp), h.symm⟩
      | none => simp [serviceError] at h

/-- The two `if` statements on `errService` return a response as soon as the error value has
validation errors or an error. -/
theorem serviceError_of_content (e : ErrorStruct)
    (h : e.ValidationErrors ≠ none ∨ e.Err ≠ none) :
    ∃ errors, serviceError (some e) = some (.response (Status e.Code) (errorBody errors)) := by
  rcases e with ⟨code, ve, err⟩
  cases ve with
  | some ve => exact ⟨_, rfl⟩
  | none =>
    cases err with
    | some err => exact ⟨_, rfl⟩
    | none => simp at h

/-! ## Claims C1 and C2: the claim sets of the two tokens -/

/-- C1: when `LoginUserService` succeeds with the account `res` and the clock reads `now`,
the first token that `LoginUser` hands to `SignedString` uses HS256 and has the claims
id = res.ID, email = res.Email, role = res.Role, iss = JWT_ISS, exp = now.Unix() + 86400 and
no other claim; an access token in the response is the signature of that token. -/
theorem C1_access_token_claims {Req : Type}
    (svc : Req → Option User × Option ErrorStruct)
    (sign : Token → String → Except GoError String)
    (env : Env) (now now2 : Time) (req : Req) (res : User)
    (hsvc : svc req = (some res, none)) :
    ∃ tok : Token,
      (LoginUser svc sign env now now2 (.ok req)).signed.head? = some tok ∧
      tok.Method = SigningMethod.HS256 ∧
      tok.Claims.lookup "id" = some (.str res.ID) ∧
      tok.Claims.lookup "email" = some (.str res.Email) ∧
      tok.Claims.lookup "role" = some (.str res.Role) ∧
      tok.Claims.lookup "iss" = some (.str env.JWT_ISS) ∧
      tok.Claims.lookup "exp" = some (.int (Time.Unix now + 86400)) ∧
      (∀ k, k ∉ ["id", "email", "role", "iss", "exp"] → tok.Claims.lookup k = none) ∧
      (∀ status body t,
        (LoginUser svc sign env now now2 (.ok req)).outcome = .response status body →
        accessTokenOf body = some t → sign tok env.JWT_SECRET = .ok t) := by
  refine ⟨NewWithClaims .HS256 (LoginUser.claims res env now), ?_, rfl, ?_, ?_, ?_, ?_, ?_,
    lookup_claims_other res env now, ?_⟩
  · simp only [LoginUser, hsvc, serviceError]
    cases sign (NewWithClaims .HS256 (LoginUser.claims res env now)) env.JWT_SECRET with
    | error e => rfl
    | ok t =>
      cases sign (NewWithClaims .HS256 (LoginUser.refreshClaims res env now2))
        env.JWT_SECRET <;> rfl
  · simp [NewWithClaims, LoginUser.claims, List.lookup]
  · simp [NewWithClaims, LoginUser.claims, List.lookup]
  · simp [NewWithClaims, LoginUser.claims, List.lookup]
  · simp [NewWithClaims, LoginUser.claims, List.lookup]
  · have h := Unix_Add_hours now 24
    simp [NewWithClaims, LoginUser.claims, List.lookup, h]
  · intro status body t hout hacc
    simp only [LoginUser, hsvc, serviceError] at hout
    cases hs : sign (NewWithClaims .HS256 (LoginUser.claims res env now)) env.JWT_SECRET with
    | error e =>
      rw [hs] at hout
      simp only [Outcome.response.injEq] at hout
      obtain ⟨-, rfl⟩ := hout
      simp [accessTokenOf, dataField, errorBody, List.lookup] at hacc
    | ok t1 =>
      rw [hs] at hout
      cases hr : sign (NewWithClaims .HS256 (LoginUser.refreshClaims res env now2))
          env.JWT_SECRET with
      | error e =>
        rw [hr] at hout
        simp only [Outcome.response.injEq] at hout
        obtain ⟨-, rfl⟩ := hout
        simp [accessTokenOf, dataField, errorBody, List.lookup] at hacc
      | ok rt =>
        rw [hr] at hout
        simp only [Outcome.response.injEq] at hout
        obtain ⟨-, rfl⟩ := hout
        simp [accessTokenOf, dataField, List.lookup] at hacc
        rw [hacc]

/-- Witness of C1 at the sample login, at the instant 1.5 seconds after the epoch. -/
theorem C1_access_token_claims_witness :
    sampleLoginOk () = (some sampleUser, none) ∧
    ∃ tok : Token,
      (LoginUser sampleLoginOk sampleSign sampleEnv 1500000000 1600000000 (.ok ())).signed.head?
        = some tok ∧
      tok.Method = SigningMethod.HS256 ∧
      tok.Claims.lookup "id" = some (.str sampleUser.ID) ∧
      tok.Claims.lookup "email" = some (.str sampleUser.Email) ∧
      tok.Claims.lookup "role" = some (.str sampleUser.Role) ∧
      tok.Claims.lookup "iss" = some (.str sampleEnv.JWT_ISS) ∧
      tok.Claims.lookup "exp" = some (.int (Time.Unix 1500000000 + 86400)) ∧
      (∀ k, k ∉ ["id", "email", "role", "iss", "exp"] → tok.Claims.lookup k = none) ∧
      (∀ status body t,
        (LoginUser sampleLoginOk sampleSign sampleEnv 1500000000 1600000000 (.ok ())).outcome
          = .response status body →
        accessTokenOf body = some t → sampleSign tok sampleEnv.JWT_SECRET = .ok t) :=
  ⟨rfl, C1_access_token_claims sampleLoginOk sampleSign sampleEnv 1500000000 1600000000 ()
    sampleUser rfl⟩

/-- C2: when `LoginUserService` succeeds with the account `res`, the refresh token that
`LoginUser` builds (it builds one exactly when the access token was signed, reading the clock
again at `now`) uses HS256 and has the claims id = res.ID, iss = JWT_ISS,
exp = now.Unix() + 604800 and no other claim: neither email nor role; a refresh token in the
response is the signature of that token. -/
theorem C2_refresh_token_claims {Req : Type}
    (svc : Req → Option User × Option ErrorStruct)
    (sign : Token → String → Except GoError String)
    (env : Env) (now1 now : Time) (req : Req) (res : User)
    (hsvc : svc req = (some res, none)) :
    ∃ access tok : Token,
      ((LoginUser svc sign env now1 now (.ok req)).signed = [access] ∨
        (LoginUser svc sign env now1 now (.ok req)).signed = [access, tok]) ∧
      (∀ t, sign access env.JWT_SECRET = .ok t →
        (LoginUser svc sign env now1 now (.ok req)).signed = [access, tok]) ∧
      tok.Method = SigningMethod.HS256 ∧
      tok.Claims.lookup "id" = some (.str res.ID) ∧
      tok.Claims.lookup "iss" = some (.str env.JWT_ISS) ∧
      tok.Claims.lookup "exp" = some (.int (Time.Unix now + 604800)) ∧
      tok.Claims.lookup "email" = none ∧
      tok.Claims.lookup "role" = none ∧
      (∀ k, k ∉ ["id", "iss", "exp"] → tok.Claims.lookup k = none) ∧
      (∀ status body rt,
        (LoginUser svc sign env now1 now (.ok req)).outcome = .response status body →
        refreshTokenOf body = some rt → sign tok env.JWT_SECRET = .ok rt) := by
  refine ⟨NewWithClaims .HS256 (LoginUser.claims res env now1),
    NewWithClaims .HS256 (LoginUser.refreshClaims res env now), ?_, ?_, rfl, ?_, ?_, ?_, ?_, ?_,
    lookup_refreshClaims_other res env now, ?_⟩
  · simp only [LoginUser, hsvc, serviceError]
    cases sign (NewWithClaims .HS256 (LoginUser.claims res env now1)) env.JWT_SECRET with
    | error e => exact Or.inl rfl
    | ok t =>
      cases sign (NewWithClaims .HS256 (LoginUser.refreshClaims res env now))
        env.JWT_SECRET <;> exact Or.inr rfl
  · intro t ht
    simp only [LoginUser, hsvc, serviceError, ht]
    cases sign (NewWithClaims .HS256 (LoginUser.refreshClaims res env now))
      env.JWT_SECRET <;> rfl
  · simp [NewWithClaims, LoginUser.refreshClaims, List.lookup]
  · simp [NewWithClaims, LoginUser.refreshClaims, List.lookup]
  · have h := Unix_Add_week now
    simp [NewWithClaims, LoginUser.refreshClaims, List.lookup, h]
  · simp [NewWithClaims, LoginUser.refreshClaims, List.lookup]
  · simp [NewWithClaims, LoginUser.refreshClaims, List.lookup]
  · intro status body rt hout href
    simp only [LoginUser, hsvc, serviceError] at hout
    cases hs : sign (NewWithClaims .HS256 (LoginUser.claims res env now1)) env.JWT_SECRET with
    | error e =>
      rw [hs] at hout
      simp only [Outcome.response.injEq] at hout
      obtain ⟨-, rfl⟩ := hout
      simp [refreshTokenOf, dataField, errorBody, List.lookup] at href
    | ok t1 =>
      rw [hs] at hout
      cases hr : sign (NewWithClaims .HS256 (LoginUser.refreshClaims res env now))
          env.JWT_SECRET with
      | error e =>
        rw [hr] at hout
        simp only [Outcome.response.injEq] at hout
        obtain ⟨-, rfl⟩ := hout
        simp [refreshTokenOf, dataField, errorBody, List.lookup] at href
      | ok rt1 =>
        rw [hr] at hout
        simp only [Outcome.response.injEq] at hout
        obtain ⟨-, rfl⟩ := hout
        simp [refreshTokenOf, dataField, List.lookup] at href
        rw [href]

/-- Witness of C2 at the sample login: both tokens are signed there. -/
theorem C2_refresh_token_claims_witness :
    sampleLoginOk () = (some sampleUser, none) ∧
    ∃ access tok : Token,
      (LoginUser sampleLoginOk sampleSign sampleEnv 1500000000 1600000000 (.ok ())).signed
        = [access, tok] ∧
      tok.Method = SigningMethod.HS256 ∧
      tok.Claims.lookup "id" = some (.str "u-1") ∧
      tok.Claims.lookup "iss" = some (.str "mikronet") ∧
      tok.Claims.lookup "exp" = some (.int 604801) ∧
      tok.Claims.lookup "email" = none ∧
      tok.Claims.lookup "role" = none := by
  obtain ⟨access, tok, -, h2, h3, h4, h5, h6, h7, h8, -, -⟩ :=
    C2_refresh_token_claims sampleLoginOk sampleSign sampleEnv 1500000000 1600000000 ()
      sampleUser rfl
  have hs : ∃ t, sampleSign access sampleEnv.JWT_SECRET = .ok t := by
    unfold sampleSign
    split <;> exact ⟨_, rfl⟩
  obtain ⟨t, ht⟩ := hs
  exact ⟨rfl, access, tok, h2 t ht, h3, h4, h5, by simpa [Time.Unix, Second] using h6, h7, h8⟩

/-! ## Claims C3, C4 and C9: panics in CreateDriver and ChangePassword -/


/-- C3: a driver registration whose body parses, whose ktp file is present and whose
profile_picture file is missing ends in a nil-pointer panic inside `readImage`: no response
with status 400 and per-field errors is produced, and the service is not called. -/
theorem C3_missing_document_panics :
    (sampleForm ["ktp"] "profile_picture").1.isNone = true ∧
    (CreateDriver sampleDriverService (sampleForm ["ktp"]) (.ok ())).outcome
      = .fault "invalid memory address or nil pointer dereference" ∧
    (CreateDriver sampleDriverService (sampleForm ["ktp"]) (.ok ())).calls.length = 0 := by
  decide

/-- C4: a ChangePassword request whose token fails verification (`GetJWTPayload` returns a
nil payload and an error) and whose body parses is not answered with an Unauthorized
response: the handler drops the error and panics at the type assertion on the id. -/
theorem C4_verification_error_is_dropped :
    (sampleVerifyRejects (stringBytes "tampered") sampleEnv.JWT_SECRET).2.isSome = true ∧
    (ChangePassword sampleVerifyRejects samplePasswordService sampleEnv "Bearer tampered"
      (.ok ())).outcome = .fault "interface conversion: interface is not string" := by
  decide

/-- C9: with an absent Authorization header (the empty string), or a header of fewer than
7 bytes, ChangePassword panics at the slice `token[7:]` and returns no response; with a
header of 7 bytes and a payload without a string id it panics at the type assertion. -/
theorem C9_short_header_panics :
    (ChangePassword sampleVerifyAccepts samplePasswordService sampleEnv "" (.ok ())).outcome
      = .fault "slice bounds out of range" ∧
    (ChangePassword sampleVerifyAccepts samplePasswordService sampleEnv "Bearer"
      (.ok ())).outcome = .fault "slice bounds out of range" ∧
    (ChangePassword sampleVerifyRejects samplePasswordService sampleEnv "Bearer "
      (.ok ())).outcome = .fault "interface conversion: interface is not string" := by
  decide

/-! ## Claim C5: signing failures in LoginUser -/

/-- C5, as stated, fails: at the sample login with a signer that fails, `LoginUser` answers
with status 403, not with status 500. -/
theorem C5_signing_failure_is_not_internal :
    sampleLoginOk () = (some sampleUser, none) ∧
    (LoginUser sampleLoginOk sampleSignFails sampleEnv 0 0 (.ok ())).outcome
      = .response 403 (errorBody (.str "Invalid token")) ∧
    ¬ ∃ body, (LoginUser sampleLoginOk sampleSignFails sampleEnv 0 0 (.ok ())).outcome
      = .response StatusInternalServerError body := by
  refine ⟨rfl, by decide, ?_⟩
  rintro ⟨body, h⟩
  have h403 : (LoginUser sampleLoginOk sampleSignFails sampleEnv 0 0 (.ok ())).outcome
      = .response 403 (errorBody (.str "Invalid token")) := by decide
  rw [h403] at h
  simp only [Outcome.response.injEq] at h
  exact absurd h.1 (by decide)

/-- C5, amended: when the service succeeds and signing the access token fails, `LoginUser`
answers 403 (Forbidden) with the error "Invalid token"; when the access token is signed and
signing the refresh token fails, it answers 403 with the error "Invalid refresh token". -/
theorem C5_signing_failure_is_forbidden {Req : Type}
    (svc : Req → Option User × Option ErrorStruct)
    (sign : Token → String → Except GoError String)
    (env : Env) (now1 now2 : Time) (req : Req) (res : User)
    (hsvc : svc req = (some res, none)) :
    (∀ e, sign (NewWithClaims .HS256 (LoginUser.claims res env now1)) env.JWT_SECRET = .error e →
      (LoginUser svc sign env now1 now2 (.ok req)).outcome
        = .response StatusForbidden (errorBody (.str "Invalid token"))) ∧
    (∀ t e, sign (NewWithClaims .HS256 (LoginUser.claims res env now1)) env.JWT_SECRET = .ok t →
      sign (NewWithClaims .HS256 (LoginUser.refreshClaims res env now2)) env.JWT_SECRET
        = .error e →
      (LoginUser svc sign env now1 now2 (.ok req)).outcome
        = .response StatusForbidden (errorBody (.str "Invalid refresh token"))) := by
  constructor
  · intro e he
    simp only [LoginUser, hsvc, serviceError, he]
  · intro t e ht he
    simp only [LoginUser, hsvc, serviceError, ht, he]

/-- Witness of the amended C5: a signer that signs the access token and fails on the refresh
token. -/
theorem C5_signing_failure_is_forbidden_witness :
    sampleLoginOk () = (some sampleUser, none) ∧
    sampleSignAccessOnly (NewWithClaims .HS256 (LoginUser.claims sampleUser sampleEnv 0))
      sampleEnv.JWT_SECRET = .ok "a.top-secret" ∧
    sampleSignAccessOnly (NewWithClaims .HS256 (LoginUser.refreshClaims sampleUser sampleEnv 0))
      sampleEnv.JWT_SECRET = .error ⟨"key is invalid", false⟩ ∧
    (LoginUser sampleLoginOk sampleSignAccessOnly sampleEnv 0 0 (.ok ())).outcome
      = .response StatusForbidden (errorBody (.str "Invalid refresh token")) :=
  ⟨rfl, rfl, rfl,
    (C5_signing_failure_is_forbidden sampleLoginOk sampleSignAccessOnly sampleEnv 0 0 ()
      sampleUser rfl).2 "a.top-secret" ⟨"key is invalid", false⟩ rfl rfl⟩

/-! ## Claim C6: the body of responses with status 500 -/

/-- C6, as stated, fails: two driver registrations that differ only in the message of the
error with which the profile picture fails to open are both answered with status 500, and
their bodies differ; so are two runs that differ only in the `Err` message of a service error
with code 500. -/
theorem C6_internal_body_depends_on_error_text :
    (CreateDriver sampleDriverService (sampleFormBrokenPP "open /tmp/a: permission denied")
      (.ok ())).outcome
      = .response 500 (errorBody (.str "open /tmp/a: permission denied")) ∧
    (CreateDriver sampleDriverService (sampleFormBrokenPP "open /tmp/a: too many open files")
      (.ok ())).outcome
      = .response 500 (errorBody (.str "open /tmp/a: too many open files")) ∧
    (CreateDriver sampleDriverService (sampleFormBrokenPP "open /tmp/a: permission denied")
      (.ok ())).outcome
      ≠ (CreateDriver sampleDriverService (sampleFormBrokenPP "open /tmp/a: too many open files")
      (.ok ())).outcome ∧
    (ChangePassword sampleVerifyAccepts (samplePasswordServiceFails "dial tcp: timeout")
      sampleEnv "Bearer abc" (.ok ())).outcome
      = .response 500 (errorBody (.str "dial tcp: timeout")) ∧
    (ChangePassword sampleVerifyAccepts (samplePasswordServiceFails "sql: no rows")
      sampleEnv "Bearer abc" (.ok ())).outcome
      = .response 500 (errorBody (.str "sql: no rows")) := by
  decide

/-- C6, amended: in every handler, a response with status 500 that reports a lower-level
error has the body status = "error", errors = the text of that error. The lower-level error
is a `readImage` failure in `CreateDriver`, or the `Err` of a service error with code 500,
which `ChangePassword`, `CreateUser`, `CreateDriver`, `LoginUser` and `ResetPassword` report
when `ValidationErrors` is nil and `SendResetPasswordLink` reports always. Bodies made from
different texts differ. -/
theorem C6_internal_body_is_error_text {Req : Type}
    (driverSvc : Req → String → Bytes → Bytes → Option ErrorStruct)
    (FormFile : String → Option FileHeader × Option GoError)
    (cpSvc : String → Req → Option ErrorStruct)
    (verify : Bytes → String → GoMap × Option GoError)
    (env : Env) (Authorization : String)
    (userSvc : Req → String → Option ErrorStruct)
    (loginSvc : Req → Option User × Option ErrorStruct)
    (sign : Token → String → Except GoError String) (now1 now2 : Time)
    (sendSvc : Req → Value × Option ErrorStruct)
    (resetSvc : Req → String → Option ErrorStruct) (code : String)
    (req : Req) (err : GoError) :
    ((FormFile "ktp").2.any (fun e => !e.isErrMissingFile) = false →
      readImage (FormFile "profile_picture").1 = some (.error err) →
      (CreateDriver driverSvc FormFile (.ok req)).outcome
        = .response StatusInternalServerError (errorBody (.str err.text))) ∧
    (∀ pp, (FormFile "ktp").2.any (fun e => !e.isErrMissingFile) = false →
      readImage (FormFile "profile_picture").1 = some (.ok pp) →
      readImage (FormFile "ktp").1 = some (.error err) →
      (CreateDriver driverSvc FormFile (.ok req)).outcome
        = .response StatusInternalServerError (errorBody (.str err.text))) ∧
    (∀ pp ktp, (FormFile "ktp").2.any (fun e => !e.isErrMissingFile) = false →
      readImage (FormFile "profile_picture").1 = some (.ok pp) →
      readImage (FormFile "ktp").1 = some (.ok ktp) →
      driverSvc req "driver" pp ktp = some ⟨500, none, some err⟩ →
      (CreateDriver driverSvc FormFile (.ok req)).outcome
        = .response 500 (errorBody (.str err.text))) ∧
    (∀ tokenString id, sliceFrom Authorization 7 = some tokenString →
      assertString ((verify tokenString env.JWT_SECRET).1.lookup "id") = some id →
      cpSvc id req = some ⟨500, none, some err⟩ →
      (ChangePassword verify cpSvc env Authorization (.ok req)).outcome
        = .response 500 (errorBody (.str err.text))) ∧
    (userSvc req "user" = some ⟨500, none, some err⟩ →
      (CreateUser userSvc (.ok req)).outcome = .response 500 (errorBody (.str err.text))) ∧
    (∀ res, loginSvc req = (res, some ⟨500, none, some err⟩) →
      (LoginUser loginSvc sign env now1 now2 (.ok req)).outcome
        = .response 500 (errorBody (.str err.text))) ∧
    (resetSvc req code = some ⟨500, none, some err⟩ →
      (ResetPassword resetSvc code (.ok req)).outcome
        = .response 500 (errorBody (.str err.text))) ∧
    (∀ res ve, sendSvc req = (res, some ⟨500, ve, some err⟩) →
      (SendResetPasswordLink sendSvc (.ok req)).outcome
        = .response 500 (errorBody (.str err.text))) ∧
    (∀ e1 e2 : GoError, errorBody (.str e1.text) = errorBody (.str e2.text) →
      e1.text = e2.text) := by
  have h500 : Status 500 = 500 := by decide
  refine ⟨?_, ?_, ?_, ?_, ?_, ?_, ?_, ?_, ?_⟩
  · intro hg hpp
    rcases hk : FormFile "ktp" with ⟨ktp, e⟩
    rw [hk] at hg
    simp only [CreateDriver, hk, hg, hpp]
    rfl
  · intro pp hg hpp hktp
    rcases hk : FormFile "ktp" with ⟨ktp, e⟩
    rw [hk] at hg hktp
    simp only [CreateDriver, hk, hg, hpp, hktp]
    rfl
  · intro pp ktp hg hpp hktp hsvc
    rcases hk : FormFile "ktp" with ⟨k, e⟩
    rw [hk] at hg hktp
    simp only [CreateDriver, hk, hg, hpp, hktp, hsvc, serviceError, h500]
    rfl
  · intro tokenString id hs hid hsvc
    simp only [ChangePassword, hs, hid, hsvc, serviceError, h500]
  · intro hsvc
    simp only [CreateUser, hsvc, serviceError, h500]
  · intro res hsvc
    simp only [LoginUser, hsvc, serviceError, h500]
  · intro hsvc
    simp only [ResetPassword, hsvc, serviceError, h500]
  · intro res ve hsvc
    simp only [SendResetPasswordLink, hsvc, h500]
  · intro e1 e2 h
    simpa [errorBody] using h

/-- Witness of the amended C6: one run of each handler with a lower-level error under status
500. -/
theorem C6_internal_body_is_error_text_witness :
    (CreateDriver sampleDriverService (sampleFormBrokenPP "permission denied")
      (.ok ())).outcome
      = .response StatusInternalServerError (errorBody (.str "permission denied")) ∧
    (CreateDriver sampleDriverService (sampleFormBrokenKtp "permission denied")
      (.ok ())).outcome
      = .response StatusInternalServerError (errorBody (.str "permission denied")) ∧
    (CreateDriver (sampleDriverServiceFails "sql: no rows")
      (sampleForm ["profile_picture", "ktp"]) (.ok ())).outcome
      = .response 500 (errorBody (.str "sql: no rows")) ∧
    (ChangePassword sampleVerifyAccepts (samplePasswordServiceFails "sql: no rows") sampleEnv
      "Bearer abc" (.ok ())).outcome = .response 500 (errorBody (.str "sql: no rows")) ∧
    (CreateUser (sampleUserServiceFails "sql: no rows") (.ok ())).outcome
      = .response 500 (errorBody (.str "sql: no rows")) ∧
    (LoginUser (sampleLoginFails "sql: no rows") sampleSign sampleEnv 0 0 (.ok ())).outcome
      = .response 500 (errorBody (.str "sql: no rows")) ∧
    (ResetPassword (sampleResetFails "sql: no rows") "c0de" (.ok ())).outcome
      = .response 500 (errorBody (.str "sql: no rows")) ∧
    (SendResetPasswordLink (sampleSendResetFails "smtp: timeout") (.ok ())).outcome
      = .response 500 (errorBody (.str "smtp: timeout")) :=
  ⟨(C6_internal_body_is_error_text sampleDriverService (sampleFormBrokenPP "permission denied")
      samplePasswordService sampleVerifyAccepts sampleEnv "Bearer abc" sampleUserService
      sampleLoginOk sampleSign 0 0 (sampleSendResetFails "") (sampleResetFails "") "c0de" ()
      ⟨"permission denied", false⟩).1 (by decide) rfl,
    (C6_internal_body_is_error_text sampleDriverService (sampleFormBrokenKtp "permission denied")
      samplePasswordService sampleVerifyAccepts sampleEnv "Bearer abc" sampleUserService
      sampleLoginOk sampleSign 0 0 (sampleSendResetFails "") (sampleResetFails "") "c0de" ()
      ⟨"permission denied", false⟩).2.1 [1, 2, 3] (by decide) rfl rfl,
    (C6_internal_body_is_error_text (sampleDriverServiceFails "sql: no rows")
      (sampleForm ["profile_picture", "ktp"])
      (samplePasswordServiceFails "sql: no rows") sampleVerifyAccepts sampleEnv "Bearer abc"
      (sampleUserServiceFails "sql: no rows") (sampleLoginFails "sql: no rows") sampleSign 0 0
      (sampleSendResetFails "") (sampleResetFails "sql: no rows") "c0de" ()
      ⟨"sql: no rows", false⟩).2.2.1 [1, 2, 3] [1, 2, 3] (by decide) rfl rfl rfl,
    (C6_internal_body_is_error_text (sampleDriverServiceFails "sql: no rows")
      (sampleForm ["profile_picture", "ktp"])
      (samplePasswordServiceFails "sql: no rows") sampleVerifyAccepts sampleEnv "Bearer abc"
      (sampleUserServiceFails "sql: no rows") (sampleLoginFails "sql: no rows") sampleSign 0 0
      (sampleSendResetFails "") (sampleResetFails "sql: no rows") "c0de" ()
      ⟨"sql: no rows", false⟩).2.2.2.1 [97, 98, 99] "u-1" (by decide) (by decide) rfl,
    (C6_internal_body_is_error_text (sampleDriverServiceFails "sql: no rows")
      (sampleForm ["profile_picture", "ktp"])
      (samplePasswordServiceFails "sql: no rows") sampleVerifyAccepts sampleEnv "Bearer abc"
      (sampleUserServiceFails "sql: no rows") (sampleLoginFails "sql: no rows") sampleSign 0 0
      (sampleSendResetFails "") (sampleResetFails "sql: no rows") "c0de" ()
      ⟨"sql: no rows", false⟩).2.2.2.2.1 rfl,
    (C6_internal_body_is_error_text (sampleDriverServiceFails "sql: no rows")
      (sampleForm ["profile_picture", "ktp"])
      (samplePasswordServiceFails "sql: no rows") sampleVerifyAccepts sampleEnv "Bearer abc"
      (sampleUserServiceFails "sql: no rows") (sampleLoginFails "sql: no rows") sampleSign 0 0
      (sampleSendResetFails "") (sampleResetFails "sql: no rows") "c0de" ()
      ⟨"sql: no rows", false⟩).2.2.2.2.2.1 none rfl,
    (C6_internal_body_is_error_text (sampleDriverServiceFails "sql: no rows")
      (sampleForm ["profile_picture", "ktp"])
      (samplePasswordServiceFails "sql: no rows") sampleVerifyAccepts sampleEnv "Bearer abc"
      (sampleUserServiceFails "sql: no rows") (sampleLoginFails "sql: no rows") sampleSign 0 0
      (sampleSendResetFails "") (sampleResetFails "sql: no rows") "c0de" ()
      ⟨"sql: no rows", false⟩).2.2.2.2.2.2.1 rfl,
    (C6_internal_body_is_error_text sampleDriverService (sampleForm ["profile_picture", "ktp"])
      samplePasswordService sampleVerifyAccepts sampleEnv "Bearer abc" sampleUserService
      sampleLoginOk sampleSign 0 0 (sampleSendResetFails "smtp: timeout") (sampleResetFails "")
      "c0de" () ⟨"smtp: timeout", false⟩).2.2.2.2.2.2.2.1 (.str "") none rfl⟩

/-! ## Claim C7: the tokens of a login response -/

/-- C7: every response of `LoginUser` either has status 200, is not an error body and carries
both an access token and a refresh token, or is an error body and carries neither token. -/
theorem C7_login_tokens_both_or_none {Req : Type}
    (svc : Req → Option User × Option ErrorStruct)
    (sign : Token → String → Except GoError String)
    (env : Env) (now1 now2 : Time) (BodyParser : Except GoError Req)
    (status : Int) (body : GoMap)
    (h : (LoginUser svc sign env now1 now2 BodyParser).outcome = .response status body) :
    (status = StatusOK ∧ isErrorBody body = false ∧
      ∃ t rt, accessTokenOf body = some t ∧ refreshTokenOf body = some rt) ∨
    (isErrorBody body = true ∧ accessTokenOf body = none ∧ refreshTokenOf body = none) := by
  have herr : ∀ errors, body = errorBody errors →
      isErrorBody body = true ∧ accessTokenOf body = none ∧ refreshTokenOf body = none := by
    intro errors hb
    subst hb
    exact ⟨isErrorBody_errorBody _, accessTokenOf_errorBody _, refreshTokenOf_errorBody _⟩
  cases BodyParser with
  | error err =>
    simp only [LoginUser, Outcome.response.injEq] at h
    exact Or.inr (herr _ h.2.symm)
  | ok user =>
    rcases hs : svc user with ⟨res, errService⟩
    simp only [LoginUser, hs] at h
    cases hse : serviceError errService with
    | some out =>
      rw [hse] at h
      obtain ⟨e, errors, -, -, hout⟩ := serviceError_some errService out hse
      simp only at h
      rw [hout, Outcome.response.injEq] at h
      exact Or.inr (herr _ h.2.symm)
    | none =>
      rw [hse] at h
      cases res with
      | none => simp at h
      | some res =>
        simp only at h
        cases h1 : sign (NewWithClaims .HS256 (LoginUser.claims res env now1))
            env.JWT_SECRET with
        | error e =>
          rw [h1] at h
          simp only [Outcome.response.injEq] at h
          exact Or.inr (herr _ h.2.symm)
        | ok t =>
          rw [h1] at h
          cases h2 : sign (NewWithClaims .HS256 (LoginUser.refreshClaims res env now2))
              env.JWT_SECRET with
          | error e =>
            rw [h2] at h
            simp only [Outcome.response.injEq] at h
            exact Or.inr (herr _ h.2.symm)
          | ok rt =>
            rw [h2] at h
            simp only [Outcome.response.injEq] at h
            obtain ⟨hst, hb⟩ := h
            subst hb
            refine Or.inl ⟨hst.symm, ?_, t, rt, ?_, ?_⟩
            · simp [isErrorBody, List.lookup]
            · simp [accessTokenOf, dataField, List.lookup]
            · simp [refreshTokenOf, dataField, List.lookup]

/-- Witness of C7 at the sample login: the response has status 200 and both tokens. -/
theorem C7_login_tokens_both_or_none_witness :
    (LoginUser sampleLoginOk sampleSign sampleEnv 0 0 (.ok ())).outcome
      = .response 200
        [ ("status", .str "success"),
          ("data", .obj [("access_token", "top-secret.access"),
            ("refresh_token", "top-secret.refresh")]) ] ∧
    ((200 = StatusOK ∧
      isErrorBody [ ("status", .str "success"),
          ("data", .obj [("access_token", "top-secret.access"),
            ("refresh_token", "top-secret.refresh")]) ] = false ∧
      ∃ t rt,
        accessTokenOf [ ("status", .str "success"),
          ("data", .obj [("access_token", "top-secret.access"),
            ("refresh_token", "top-secret.refresh")]) ] = some t ∧
        refreshTokenOf [ ("status", .str "success"),
          ("data", .obj [("access_token", "top-secret.access"),
            ("refresh_token", "top-secret.refresh")]) ] = some rt) ∨
    (isErrorBody [ ("status", .str "success"),
          ("data", .obj [("access_token", "top-secret.access"),
            ("refresh_token", "top-secret.refresh")]) ] = true ∧
      accessTokenOf [ ("status", .str "success"),
          ("data", .obj [("access_token", "top-secret.access"),
            ("refresh_token", "top-secret.refresh")]) ] = none ∧
      refreshTokenOf [ ("status", .str "success"),
          ("data", .obj [("access_token", "top-secret.access"),
            ("refresh_token", "top-secret.refresh")]) ] = none)) :=
  ⟨by decide,
    C7_login_tokens_both_or_none sampleLoginOk sampleSign sampleEnv 0 0 (.ok ()) 200 _
      (by decide)⟩

/-! ## Claim C8: the role of a registration -/

/-- C8: `CreateUser` invokes the registration service with the role "user" (the rider role)
and `CreateDriver` invokes it with the role "driver", for every request body. Every recorded
call has that role; a request that reaches the service makes exactly one call, with the
parsed body and that role, and is answered from what the service returns at that role
(its error, or 201 when it returns none); and the run of the handler is the same for any two
services that agree at that role, so the service is consulted at no other role. -/
theorem C8_role_fixed_by_entry_point {Req : Type}
    (userSvc : Req → String → Option ErrorStruct)
    (driverSvc : Req → String → Bytes → Bytes → Option ErrorStruct)
    (FormFile : String → Option FileHeader × Option GoError)
    (BodyParser : Except GoError Req) :
    (∀ call ∈ (CreateUser userSvc BodyParser).calls, call.role = "user") ∧
    (∀ req, BodyParser = .ok req →
      (CreateUser userSvc BodyParser).calls.map (fun call => call.role) = ["user"]) ∧
    (∀ call ∈ (CreateDriver driverSvc FormFile BodyParser).calls, call.role = "driver") ∧
    (∀ req pp ktp, BodyParser = .ok req →
      (FormFile "ktp").2.any (fun e => !e.isErrMissingFile) = false →
      readImage (FormFile "profile_picture").1 = some (.ok pp) →
      readImage (FormFile "ktp").1 = some (.ok ktp) →
      (CreateDriver driverSvc FormFile BodyParser).calls.map (fun call => call.role)
        = ["driver"]) ∧
    (∀ req, BodyParser = .ok req →
      (CreateUser userSvc BodyParser).calls = [⟨req, "user"⟩] ∧
      (CreateUser userSvc BodyParser).outcome
        = (serviceError (userSvc req "user")).getD
            (.response StatusCreated (successBody "akun berhasil dibuat!"))) ∧
    (∀ req pp ktp, BodyParser = .ok req →
      (FormFile "ktp").2.any (fun e => !e.isErrMissingFile) = false →
      readImage (FormFile "profile_picture").1 = some (.ok pp) →
      readImage (FormFile "ktp").1 = some (.ok ktp) →
      (CreateDriver driverSvc FormFile BodyParser).calls = [⟨req, "driver", pp, ktp⟩] ∧
      (CreateDriver driverSvc FormFile BodyParser).outcome
        = (serviceError (driverSvc req "driver" pp ktp)).getD
            (.response StatusCreated (successBody "akun berhasil dibuat!"))) ∧
    (∀ userSvc2 : Req → String → Option ErrorStruct,
      (∀ req, userSvc2 req "user" = userSvc req "user") →
      (CreateUser userSvc2 BodyParser).calls = (CreateUser userSvc BodyParser).calls ∧
      (CreateUser userSvc2 BodyParser).outcome = (CreateUser userSvc BodyParser).outcome) ∧
    (∀ driverSvc2 : Req → String → Bytes → Bytes → Option ErrorStruct,
      (∀ req pp ktp, driverSvc2 req "driver" pp ktp = driverSvc req "driver" pp ktp) →
      (CreateDriver driverSvc2 FormFile BodyParser).calls
        = (CreateDriver driverSvc FormFile BodyParser).calls ∧
      (CreateDriver driverSvc2 FormFile BodyParser).outcome
        = (CreateDriver driverSvc FormFile BodyParser).outcome) := by
  refine ⟨?_, ?_, ?_, ?_, ?_, ?_, ?_, ?_⟩
  · intro call hc
    cases BodyParser with
    | error err => simp [CreateUser] at hc
    | ok user =>
      simp only [CreateUser] at hc
      cases hse : serviceError (userSvc user "user") with
      | some out => rw [hse] at hc; simp at hc; rw [hc]
      | none => rw [hse] at hc; simp at hc; rw [hc]
  · intro req hreq
    subst hreq
    simp only [CreateUser]
    cases serviceError (userSvc req "user") <;> rfl
  · intro call hc
    rcases hk : FormFile "ktp" with ⟨ktp, e⟩
    simp only [CreateDriver, hk] at hc
    split at hc
    · simp at hc
    · cases BodyParser with
      | error err => simp at hc
      | ok driver =>
        simp only at hc
        split at hc
        · simp at hc
        · simp at hc
        · split at hc
          · simp at hc
          · simp at hc
          · split at hc
            · simp at hc; rw [hc]
            · simp at hc; rw [hc]
  · intro req pp ktp hreq hg hpp hktp
    subst hreq
    rcases hk : FormFile "ktp" with ⟨k, e⟩
    rw [hk] at hg hktp
    simp only [CreateDriver, hk, hg, hpp, hktp]
    simp only [Bool.false_eq_true, if_false]
    cases serviceError (driverSvc req "driver" pp ktp) <;> rfl
  · intro req hreq
    subst hreq
    simp only [CreateUser]
    cases serviceError (userSvc req "user") <;> exact ⟨rfl, rfl⟩
  · intro req pp ktp hreq hg hpp hktp
    subst hreq
    rcases hk : FormFile "ktp" with ⟨k, e⟩
    rw [hk] at hg hktp
    simp only [CreateDriver, hk, hg, hpp, hktp]
    simp only [Bool.false_eq_true, if_false]
    cases serviceError (driverSvc req "driver" pp ktp) <;> exact ⟨rfl, rfl⟩
  · intro userSvc2 hagree
    simp only [CreateUser, hagree]
    exact ⟨trivial, trivial⟩
  · intro driverSvc2 hagree
    simp only [CreateDriver, hagree]
    exact ⟨trivial, trivial⟩

/-- Witness of C8: a user registration against a service that rejects every role but "user",
and a driver registration with both files against a service that rejects every role but
"driver"; both are answered 201. -/
theorem C8_role_fixed_by_entry_point_witness :
    (CreateUser sampleUserServiceChecksRole (.ok ())).calls.map (fun call => call.role)
      = ["user"] ∧
    (CreateUser sampleUserServiceChecksRole (.ok ())).outcome
      = .response 201 (successBody "akun berhasil dibuat!") ∧
    (CreateDriver sampleDriverServiceChecksRole (sampleForm ["profile_picture", "ktp"])
      (.ok ())).calls.map (fun call => call.role) = ["driver"] ∧
    (CreateDriver sampleDriverServiceChecksRole (sampleForm ["profile_picture", "ktp"])
      (.ok ())).outcome = .response 201 (successBody "akun berhasil dibuat!") :=
  ⟨(C8_role_fixed_by_entry_point sampleUserServiceChecksRole sampleDriverServiceChecksRole
      (sampleForm ["profile_picture", "ktp"]) (.ok ())).2.1 () rfl,
    ((C8_role_fixed_by_entry_point sampleUserServiceChecksRole sampleDriverServiceChecksRole
      (sampleForm ["profile_picture", "ktp"]) (.ok ())).2.2.2.2.1 () rfl).2,
    (C8_role_fixed_by_entry_point sampleUserServiceChecksRole sampleDriverServiceChecksRole
      (sampleForm ["profile_picture", "ktp"]) (.ok ())).2.2.2.1 () [1, 2, 3] [1, 2, 3] rfl
      (by decide) rfl rfl,
    ((C8_role_fixed_by_entry_point sampleUserServiceChecksRole sampleDriverServiceChecksRole
      (sampleForm ["profile_picture", "ktp"]) (.ok ())).2.2.2.2.2.1 () [1, 2, 3] [1, 2, 3] rfl
      (by decide) rfl rfl).2⟩

/-! ## Claim C10: error values of the login service -/

/-- C10, as stated, fails: when the login service returns an error value whose
`ValidationErrors` and `Err` are both nil, next to an account record, `LoginUser` signs two
tokens and answers 200 with both. -/
theorem C10_empty_error_value_issues_tokens :
    (sampleLoginEmptyError ()).2 = some ⟨401, none, none⟩ ∧
    (LoginUser sampleLoginEmptyError sampleSign sampleEnv 0 0 (.ok ())).outcome
      = .response 200
        [ ("status", .str "success"),
          ("data", .obj [("access_token", "top-secret.access"),
            ("refresh_token", "top-secret.refresh")]) ] ∧
    (LoginUser sampleLoginEmptyError sampleSign sampleEnv 0 0 (.ok ())).signed.length = 2 := by
  decide

/-- C10, amended: when `LoginUserService` returns an error value whose `ValidationErrors` or
`Err` is not nil, `LoginUser` answers with an error response, hands no token to the signer and
carries no token in the response, for every other content of that error value. -/
theorem C10_error_value_with_content {Req : Type}
    (svc : Req → Option User × Option ErrorStruct)
    (sign : Token → String → Except GoError String)
    (env : Env) (now1 now2 : Time) (req : Req) (res : Option User) (e : ErrorStruct)
    (hsvc : svc req = (res, some e))
    (hcontent : e.ValidationErrors ≠ none ∨ e.Err ≠ none) :
    ∃ status body,
      (LoginUser svc sign env now1 now2 (.ok req)).outcome = .response status body ∧
      isErrorBody body = true ∧
      accessTokenOf body = none ∧ refreshTokenOf body = none ∧
      (LoginUser svc sign env now1 now2 (.ok req)).signed = [] := by
  obtain ⟨errors, herr⟩ := serviceError_of_content e hcontent
  refine ⟨Status e.Code, errorBody errors, ?_, isErrorBody_errorBody _,
    accessTokenOf_errorBody _, refreshTokenOf_errorBody _, ?_⟩
  · simp only [LoginUser, hsvc, herr]
  · simp only [LoginUser, hsvc, herr]

/-- Witness of the amended C10: the service rejects the login with code 401 and an error. -/
theorem C10_error_value_with_content_witness :
    sampleLoginRejects ⟨401, none, some ⟨"email atau password salah", false⟩⟩ ()
      = (none, some ⟨401, none, some ⟨"email atau password salah", false⟩⟩) ∧
    ∃ status body,
      (LoginUser (sampleLoginRejects ⟨401, none, some ⟨"email atau password salah", false⟩⟩)
        sampleSign sampleEnv 0 0 (.ok ())).outcome = .response status body ∧
      isErrorBody body = true ∧
      accessTokenOf body = none ∧ refreshTokenOf body = none ∧
      (LoginUser (sampleLoginRejects ⟨401, none, some ⟨"email atau password salah", false⟩⟩)
        sampleSign sampleEnv 0 0 (.ok ())).signed = [] :=
  ⟨rfl,
    C10_error_value_with_content
      (sampleLoginRejects ⟨401, none, some ⟨"email atau password salah", false⟩⟩)
      sampleSign sampleEnv 0 0 () none ⟨401, none, some ⟨"email atau password salah", false⟩⟩
      rfl (Or.inr (by simp))⟩

/-! ## Claim C11: errors of the two form files in CreateDriver -/

/-- The sibling path of C11: when reading the ktp file fails with an error that is not the
missing-file error, `CreateDriver` answers 400 "error reading image" and makes no call to the
service, whatever the profile picture and the body are. -/
theorem CreateDriver_ktp_read_error {Req : Type}
    (svc : Req → String → Bytes → Bytes → Option ErrorStruct)
    (FormFile : String → Option FileHeader × Option GoError)
    (BodyParser : Except GoError Req) (e : GoError)
    (hktp : (FormFile "ktp").2 = some e) (hmiss : e.isErrMissingFile = false) :
    (CreateDriver svc FormFile BodyParser).outcome
      = .response StatusBadRequest (errorBody (.str "error reading image")) ∧
    (CreateDriver svc FormFile BodyParser).calls = [] := by
  rcases hk : FormFile "ktp" with ⟨ktp, err⟩
  rw [hk] at hktp
  simp only at hktp
  subst hktp
  simp [CreateDriver, hk, hmiss]

/-- C11: when reading the profile_picture file fails with an error that is not the
missing-file error, while the ktp file is read and the body parses, `CreateDriver` does not
answer 400 "error reading image": the error is overwritten by the result of the ktp lookup and
the handler panics in `readImage` on the nil file header. The same failure on the ktp file is
answered with 400 "error reading image"; the service is called in neither run. -/
theorem C11_profile_picture_error_is_overwritten :
    (sampleFormUnreadable "profile_picture" "unexpected EOF" "profile_picture")
      = (none, some ⟨"unexpected EOF", false⟩) ∧
    (CreateDriver sampleDriverService (sampleFormUnreadable "profile_picture" "unexpected EOF")
      (.ok ())).outcome = .fault "invalid memory address or nil pointer dereference" ∧
    (CreateDriver sampleDriverService (sampleFormUnreadable "profile_picture" "unexpected EOF")
      (.ok ())).outcome ≠ .response StatusBadRequest (errorBody (.str "error reading image")) ∧
    (CreateDriver sampleDriverService (sampleFormUnreadable "profile_picture" "unexpected EOF")
      (.ok ())).calls.length = 0 ∧
    (CreateDriver sampleDriverService (sampleFormUnreadable "ktp" "unexpected EOF")
      (.ok ())).outcome = .response 400 (errorBody (.str "error reading image")) ∧
    (CreateDriver sampleDriverService (sampleFormUnreadable "ktp" "unexpected EOF")
      (.ok ())).calls.length = 0 := by
  refine ⟨rfl, ?_, ?_, ?_, ?_, ?_⟩ <;> decide

end AuthController
